import Mathlib

/- Verification development for the SublimeHaskell ghc-mod backend.

   Shallow embedding of src/ghcimod/backend.py (classes GHCModBackend and
   GHCModClient) and src/internals/proc_helper.py (class ProcHelper).

   Python strings are modelled as lists of characters (`PyStr`); the
   subprocess's stdout is modelled as a list of read events (each
   `readline()` call either yields a string or raises OSError); writes to
   the subprocess's stdin are modelled as a single outcome (success or
   OSError) since nothing in the embedded code observes the written bytes. -/

abbrev PyStr := List Char

/- Python str.isspace characters relevant to rstrip: space, tab, newline,
   carriage return, vertical tab, form feed. -/
def isPySpace (c : Char) : Bool :=
  c == ' ' || c == '\t' || c == '\n' || c == '\r' || c == '\x0b' || c == '\x0c'

def isPyDigit (c : Char) : Bool := '0' ≤ c && c ≤ '9'

/- Python re \w on ASCII: letters, digits, underscore. -/
def isWordChar (c : Char) : Bool := c.isAlphanum || c == '_'

/- Python str.rstrip() with no argument: remove trailing whitespace. -/
def pyRstrip (s : PyStr) : PyStr := (s.reverse.dropWhile isPySpace).reverse

/- Python s.startswith(p): pyStartswith p s. -/
def pyStartswith : PyStr → PyStr → Bool
  | [], _ => true
  | _ :: _, [] => false
  | p :: ps, c :: cs => p == c && pyStartswith ps cs

/- Python str.lower() (the embedded code only lowercases ASCII). -/
def pyLower (s : PyStr) : PyStr := s.map Char.toLower

/- Python int() applied to a string of decimal digits (the regex groups
   `line` and `col` are \d+, so no sign or whitespace handling is needed). -/
def pyInt (s : PyStr) : Nat := s.foldl (fun a c => 10 * a + (c.toNat - 48)) 0

def oMark : PyStr := "O: ".toList
def xMark : PyStr := "X: ".toList
def ngMark : PyStr := "NG ".toList
def okText : PyStr := "OK".toList

/- Python exceptions that the embedded code can raise or catch. -/
inductive PyErr
  | attributeError
  | valueError
  | osError
  deriving DecidableEq, Repr

/- One result of calling readline() on the subprocess's stdout: either a
   string (empty = end of stream) or an OSError.  When the event list is
   exhausted, readline keeps returning the empty string (end of stream). -/
inductive ReadEvent
  | line (s : PyStr)
  | ioError
  deriving DecidableEq, Repr

/- Outcome of writing a command to the subprocess's stdin and flushing. -/
inductive WriteEvent
  | ok
  | ioError
  deriving DecidableEq, Repr

/- ProcHelper state: whether `self.process` is a live handle (ProcHelper
   sets `self.process = None` when the executable was not found). -/
structure ProcHelperSt where
  process : Bool
  deriving DecidableEq, Repr

/- GHCModClient state: the fields assigned in __init__ and cleared by
   shutdown.  `ghcmod` is the ProcHelper (None after shutdown),
   `action_lock` and `stderr_drain` model whether those fields are set. -/
structure GHCModClientSt where
  ghcmod : Option ProcHelperSt
  action_lock : Bool
  stderr_drain : Bool
  deriving DecidableEq, Repr

/- A client whose __init__ succeeded: process spawned, lock and drain set. -/
def initClient : GHCModClientSt :=
  { ghcmod := some { process := true }, action_lock := true, stderr_drain := true }

/- A client after shutdown: all three fields are None. -/
def deadClient : GHCModClientSt :=
  { ghcmod := none, action_lock := false, stderr_drain := false }

/- GHCModClient.shutdown.  The blank-line write to stdin swallows OSError,
   so its outcome does not affect the result; stopping and joining the
   stderr drain has no observable effect in this model.  When `ghcmod` is a
   ProcHelper whose process is None, `self.ghcmod.process.stdin` raises
   AttributeError (only OSError is caught).  Otherwise all fields are set
   to None. -/
def GHCModClient.shutdown (c : GHCModClientSt) : Except PyErr GHCModClientSt :=
  match c.ghcmod with
  | some p => if p.process then Except.ok deadClient else Except.error PyErr.attributeError
  | none => Except.ok deadClient

/- The read-reply loop body of GHCModClient.read_response, for a live
   client `c`.  Accumulates resp_stdout and resp_stderr; on an OSError the
   `except OSError: self.shutdown()` handler runs, which for a live client
   produces the dead state, and the accumulated pair is returned. -/
def readLoop (c : GHCModClientSt) (acc_out acc_err : List PyStr) :
    List ReadEvent → (List PyStr × List PyStr) × GHCModClientSt
  | [] => ((acc_out, acc_err), c)
  | ReadEvent.ioError :: _ => ((acc_out, acc_err), deadClient)
  | ReadEvent.line s :: rest =>
    if s = [] then
      ((acc_out, acc_err), c)
    else
      let pfx := s.take 3
      let resp := (pyRstrip s).drop 3
      if pfx = oMark then
        if resp = okText then ((acc_out, acc_err), c)
        else readLoop c (acc_out ++ [pyRstrip resp]) acc_err rest
      else if pfx = xMark then
        readLoop c acc_out (acc_err ++ [pyRstrip resp]) rest
      else if pfx = ngMark then ((acc_out, acc_err), c)
      else ((acc_out, acc_err), c)

/- GHCModClient.read_response.  Reading `self.ghcmod.process.stdout` on a
   client whose ghcmod or process is None raises AttributeError (uncaught,
   since only OSError is handled). -/
def GHCModClient.read_response (c : GHCModClientSt) (evs : List ReadEvent) :
    Except PyErr ((List PyStr × List PyStr) × GHCModClientSt) :=
  match c.ghcmod with
  | none => Except.error PyErr.attributeError
  | some p =>
    if p.process then Except.ok (readLoop c [] [] evs)
    else Except.error PyErr.attributeError

/- GHCModClient.command_backend.  `with self.action_lock:` raises when the
   lock is None (dead session); writing to `self.ghcmod.process.stdin`
   raises AttributeError when ghcmod or its process is None; an OSError on
   the write is caught: the session is shut down and ([], []) returned. -/
def GHCModClient.command_backend (c : GHCModClientSt) (w : WriteEvent)
    (evs : List ReadEvent) : Except PyErr ((List PyStr × List PyStr) × GHCModClientSt) :=
  if c.action_lock then
    match c.ghcmod with
    | none => Except.error PyErr.attributeError
    | some p =>
      if p.process then
        match w with
        | WriteEvent.ioError =>
          (GHCModClient.shutdown c).map (fun c2 => (([], []), c2))
        | WriteEvent.ok => GHCModClient.read_response c evs
      else Except.error PyErr.attributeError
  else Except.error PyErr.attributeError

/- GHCModClient.map_file: writes the map-file command, the contents and the
   EOT terminator (any OSError among those writes hits the same handler),
   then runs read_response.  The written bytes are not observable in the
   model, so the body coincides with command_backend's. -/
def GHCModClient.map_file (c : GHCModClientSt) (_file _contents : PyStr)
    (w : WriteEvent) (evs : List ReadEvent) :
    Except PyErr ((List PyStr × List PyStr) × GHCModClientSt) :=
  if c.action_lock then
    match c.ghcmod with
    | none => Except.error PyErr.attributeError
    | some p =>
      if p.process then
        match w with
        | WriteEvent.ioError =>
          (GHCModClient.shutdown c).map (fun c2 => (([], []), c2))
        | WriteEvent.ok => GHCModClient.read_response c evs
      else Except.error PyErr.attributeError
  else Except.error PyErr.attributeError

/- GHCModClient.unmap_file: writes the unmap-file command, then runs
   read_response. -/
def GHCModClient.unmap_file (c : GHCModClientSt) (_file : PyStr)
    (w : WriteEvent) (evs : List ReadEvent) :
    Except PyErr ((List PyStr × List PyStr) × GHCModClientSt) :=
  if c.action_lock then
    match c.ghcmod with
    | none => Except.error PyErr.attributeError
    | some p =>
      if p.process then
        match w with
        | WriteEvent.ioError =>
          (GHCModClient.shutdown c).map (fun c2 => (([], []), c2))
        | WriteEvent.ok => GHCModClient.read_response c evs
      else Except.error PyErr.attributeError
  else Except.error PyErr.attributeError

/- A stream line as produced by readline for the logical line l: the line
   text followed by the newline character. -/
def mkLine (l : PyStr) : ReadEvent := ReadEvent.line (l ++ ['\n'])

/- A well-formed (non-terminating) reply line: no trailing whitespace, a
   3-character O or X channel marker, and not the `O: OK` terminator. -/
def wellFormedLine (l : PyStr) : Bool :=
  (pyRstrip l == l) &&
  (l.take 3 == oMark || l.take 3 == xMark) &&
  !(l.take 3 == oMark && l.drop 3 == okText)

/- The normal-channel lines of a well-formed prefix, markers stripped. -/
def oLinesOf (ls : List PyStr) : List PyStr :=
  (ls.filter (fun l => l.take 3 == oMark)).map (fun l => l.drop 3)

/- The error-channel lines of a well-formed prefix, markers stripped. -/
def xLinesOf (ls : List PyStr) : List PyStr :=
  (ls.filter (fun l => l.take 3 == xMark)).map (fun l => l.drop 3)

/- Path handling used by the translators (posixpath semantics, as used by
   os.path on the platforms the check/lint output mentions). -/

/- os.path.isabs: the path starts with the separator. -/
def pyIsAbs (s : PyStr) : Bool := pyStartswith ("/".toList) s

/- os.path.join for two components (posixpath.join): an absolute second
   component replaces the first; otherwise a separator is inserted unless
   the first component is empty or already ends with one. -/
def pyJoin (a b : PyStr) : PyStr :=
  if pyStartswith ("/".toList) b then b
  else if a = [] ∨ a.getLast? = some '/' then a ++ b
  else a ++ '/' :: b

/- Python str.split('/'). -/
def pySplitSep : PyStr → List PyStr
  | [] => [[]]
  | c :: cs =>
    if c = '/' then [] :: pySplitSep cs
    else
      match pySplitSep cs with
      | [] => [[c]]
      | chunk :: rest => (c :: chunk) :: rest

/- Python '/'.join. -/
def pyJoinSep : List PyStr → PyStr
  | [] => []
  | [x] => x
  | x :: xs => x ++ '/' :: pyJoinSep xs

/- One step of posixpath.normpath's component loop. -/
def normStep (initialSlashes : Nat) (acc : List PyStr) (comp : PyStr) : List PyStr :=
  if comp = [] ∨ comp = ['.'] then acc
  else if comp ≠ ['.', '.'] ∨ (initialSlashes = 0 ∧ acc = []) ∨
          (acc ≠ [] ∧ acc.getLast? = some ['.', '.']) then acc ++ [comp]
  else if acc ≠ [] then acc.dropLast
  else acc

/- posixpath.normpath: collapse separators, '.' and '..' components,
   preserving a double leading slash (but not three or more). -/
def pyNormpath (path : PyStr) : PyStr :=
  if path = [] then ['.']
  else
    let initialSlashes : Nat :=
      if pyStartswith ("/".toList) path then
        (if pyStartswith ("//".toList) path ∧ ¬ pyStartswith ("///".toList) path then 2
         else 1)
      else 0
    let comps := pySplitSep path
    let newComps := comps.foldl (normStep initialSlashes) []
    let joined := List.replicate initialSlashes '/' ++ pyJoinSep newComps
    if joined = [] then ['.'] else joined

/- The regular-expression grammars of backend.py:
     FILE_LINE_COL_REGEX =
       \s*^(?P<file>\S*):(?P<line>\d+):(?P<col>\d+):(\s*(?P<flag>\*|[Ww]arning:)\s+)?
     GHC_CHECK_REGEX = FILE_LINE_COL_REGEX + (?P<details>.*$(\n^(?:\*?\s+).*$)*)
   compiled with re.MULTILINE.

   The matcher below implements Python's leftmost match with greedy,
   longest-first backtracking for each star/plus, threading the reversed
   prefix of consumed text (`b`) so that ^ (line start: position 0 or just
   after a newline) and $ (just before a newline or at the end) can be
   tested, and a continuation `k` receiving the consumed characters of the
   current group, the new reversed prefix and the remaining input. -/

/- Greedy X* with full backtracking, longest first. -/
def starChars {α : Type} (p : Char → Bool) (seen b r : List Char)
    (k : List Char → List Char → List Char → Option α) : Option α :=
  match r with
  | [] => k seen.reverse b []
  | c :: rs =>
    if p c then
      (starChars p (c :: seen) (c :: b) rs k) <|> k seen.reverse b (c :: rs)
    else k seen.reverse b (c :: rs)

/- Greedy X+ = one X then greedy X*. -/
def plusChars {α : Type} (p : Char → Bool) (b r : List Char)
    (k : List Char → List Char → List Char → Option α) : Option α :=
  match r with
  | [] => none
  | c :: rs => if p c then starChars p [c] (c :: b) rs k else none

/- A single literal character. -/
def expectChar {α : Type} (ch : Char) (b r : List Char)
    (k : List Char → List Char → Option α) : Option α :=
  match r with
  | [] => none
  | c :: rs => if c = ch then k (c :: b) rs else none

/- A literal string. -/
def expectLit {α : Type} : List Char → List Char → List Char →
    (List Char → List Char → Option α) → Option α
  | [], b, r, k => k b r
  | c :: cs, b, r, k =>
    match r with
    | [] => none
    | c' :: rs => if c' = c then expectLit cs (c' :: b) rs k else none

/- MULTILINE ^: at the start of the input or just after a newline. -/
def lineStart : List Char → Bool
  | [] => true
  | c :: _ => c == '\n'

/- The alternation \*|[Ww]arning: (alternatives are disjoint). -/
def flagAlt {α : Type} (b r : List Char)
    (k : List Char → List Char → List Char → Option α) : Option α :=
  (expectChar '*' b r (fun b1 r1 => k ['*'] b1 r1)) <|>
  (expectLit ("Warning:".toList) b r (fun b1 r1 => k ("Warning:".toList) b1 r1)) <|>
  (expectLit ("warning:".toList) b r (fun b1 r1 => k ("warning:".toList) b1 r1))

/- The optional group (\s*(?P<flag>\*|[Ww]arning:)\s+)?: greedy, so the
   with-group alternative is tried first. -/
def optFlagGroup {α : Type} (b r : List Char)
    (k : Option (List Char) → List Char → List Char → Option α) : Option α :=
  (starChars isPySpace [] b r (fun _ b1 r1 =>
    flagAlt b1 r1 (fun fl b2 r2 =>
      plusChars isPySpace b2 r2 (fun _ b3 r3 => k (some fl) b3 r3)))) <|>
  k none b r

/- The tail of one continuation-line iteration, after its newline:
   (?:\*?\s+).*$ — since everything after the details group always
   succeeds, the greedy stars take their maximal munch with no further
   backtracking, exactly as Python's engine does here. -/
def wsDotTail (b r : List Char) : Option (List Char × List Char × List Char) :=
  match r with
  | c :: _ =>
    if isPySpace c then
      let ws := r.takeWhile isPySpace
      let r1 := r.dropWhile isPySpace
      let dots := r1.takeWhile (fun ch => ch ≠ '\n')
      let r2 := r1.dropWhile (fun ch => ch ≠ '\n')
      some (ws ++ dots, (dots.reverse ++ ws.reverse) ++ b, r2)
    else none
  | [] => none

def contTail (b r : List Char) : Option (List Char × List Char × List Char) :=
  (match r with
   | c :: rs =>
     if c = '*' then (wsDotTail (c :: b) rs).map (fun t => (c :: t.1, t.2.1, t.2.2))
     else none
   | [] => none) <|>
  wsDotTail b r

/- The remaining input of a successful contTail step is no longer than its
   input (it is a double dropWhile of the input or of its tail). -/
theorem wsDotTail_rest {b r c1 b1 r1 : List Char}
    (h : wsDotTail b r = some (c1, b1, r1)) : r1.length ≤ r.length := by
  unfold wsDotTail at h
  split at h
  · split at h
    · simp only [Option.some_inj, Prod.mk.injEq] at h
      obtain ⟨-, -, h3⟩ := h
      subst h3
      exact le_trans (List.dropWhile_sublist _).length_le (List.dropWhile_sublist _).length_le
    · simp at h
  · simp at h

theorem contTail_length {b r c1 b1 r1 : List Char}
    (h : contTail b r = some (c1, b1, r1)) : r1.length ≤ r.length := by
  unfold contTail at h
  have horelse : (∀ (x y : Option (List Char × List Char × List Char)) z,
      (x <|> y) = some z → x = some z ∨ y = some z) := by
    intro x y z hxy
    rcases x with _ | v
    · right; simpa using hxy
    · left; simpa using hxy
  rcases horelse _ _ _ h with h1 | h2
  · rcases r with _ | ⟨c, rs⟩
    · simp at h1
    · dsimp only at h1
      by_cases hc : c = '*'
      · rw [if_pos hc] at h1
        obtain ⟨⟨tc, tb, tr⟩, ht, hft⟩ := Option.map_eq_some'.mp h1
        have hlen := wsDotTail_rest ht
        have h3 : r1 = tr := by
          have := congrArg (fun q => q.2.2) hft
          simpa using this.symm
        simp only [h3, List.length_cons]
        omega
      · rw [if_neg hc] at h1
        simp at h1
  · exact wsDotTail_rest h2

/- The continuation-line star (\n^(?:\*?\s+).*$)*: each iteration consumes
   the newline (so ^ holds) and then contTail; the star is greedy and, as
   everything after it always succeeds, it simply iterates while an
   iteration matches.  Returns consumed text, new reversed prefix, rest.
   Structural recursion on a fuel counter keeps the definition computable
   by the kernel; since every iteration consumes at least the newline
   (contTail_length bounds the rest), fuel r.length + 1 always suffices
   and the zero-fuel branch is never reached. -/
def contLinesAux : Nat → List Char → List Char → List Char × List Char × List Char
  | 0, b, r => ([], b, r)
  | fuel + 1, b, r =>
    match r with
    | '\n' :: rs =>
      match contTail ('\n' :: b) rs with
      | some (c1, b1, r1) =>
        let res := contLinesAux fuel b1 r1
        ('\n' :: (c1 ++ res.1), res.2.1, res.2.2)
      | none => ([], b, r)
    | _ => ([], b, r)

def contLines (b r : List Char) : List Char × List Char × List Char :=
  contLinesAux (r.length + 1) b r

/- The details group of GHC_CHECK_REGEX: .*$(\n^(?:\*?\s+).*$)* — the
   first .*$ takes the rest of the current line, then continuation lines. -/
def detailsStage (b r : List Char) : List Char × List Char × List Char :=
  let dots := r.takeWhile (fun ch => ch ≠ '\n')
  let r1 := r.dropWhile (fun ch => ch ≠ '\n')
  let res := contLines (dots.reverse ++ b) r1
  (dots ++ res.1, res.2.1, res.2.2)

/- The named groups of a GHC_CHECK_REGEX match. -/
structure CheckGroups where
  file : PyStr
  line : PyStr
  col : PyStr
  flag : Option PyStr
  details : PyStr
  deriving DecidableEq, Repr

/- Attempt to match GHC_CHECK_REGEX at the current position: `b` is the
   reversed consumed prefix of the whole text, `r` the rest.  On success
   returns the groups, the new reversed prefix and the remaining input. -/
def matchCheck (b r : List Char) : Option (CheckGroups × List Char × List Char) :=
  starChars isPySpace [] b r (fun _ b1 r1 =>
    if lineStart b1 then
      starChars (fun c => !(isPySpace c)) [] b1 r1 (fun file b2 r2 =>
        expectChar ':' b2 r2 (fun b3 r3 =>
          plusChars isPyDigit b3 r3 (fun lineG b4 r4 =>
            expectChar ':' b4 r4 (fun b5 r5 =>
              plusChars isPyDigit b5 r5 (fun colG b6 r6 =>
                expectChar ':' b6 r6 (fun b7 r7 =>
                  optFlagGroup b7 r7 (fun flagG b8 r8 =>
                    let res := detailsStage b8 r8
                    some (⟨file, lineG, colG, flagG, res.1⟩, res.2.1, res.2.2))))))))
    else none)

/- re.finditer for GHC_CHECK_REGEX: scan left to right, yield each
   leftmost match and continue after it (advancing one character past a
   zero-width match, as Python does).  Fuel bounds the scan; text.length+1
   suffices since every step consumes at least one character. -/
def finditerAux : Nat → List Char → List Char → List CheckGroups
  | 0, _, _ => []
  | fuel + 1, b, r =>
    match matchCheck b r with
    | some (g, b2, r2) =>
      if r2.length < r.length then g :: finditerAux fuel b2 r2
      else
        g :: (match r2 with
              | [] => []
              | c :: rs => finditerAux fuel (c :: b2) rs)
    | none =>
      match r with
      | [] => []
      | c :: rs => finditerAux fuel (c :: b) rs

def finditerCheck (t : List Char) : List CheckGroups := finditerAux (t.length + 1) [] t

/- The named groups of a GHC_LINT_REGEX match:
     FILE_LINE_COL_REGEX + (?P<msg>.*$)(?P<details>(\n(.*$))+)
   (the flag group of the shared FILE_LINE_COL_REGEX is present but unused
   by translate_lint). -/
structure LintGroups where
  file : PyStr
  line : PyStr
  col : PyStr
  flag : Option PyStr
  msg : PyStr
  details : PyStr
  deriving DecidableEq, Repr

/- The diagnostic record dictionaries built by the translators.  Python
   dict keys 'from' and 'to' are rendered as from_ and to_ (Lean keywords). -/
structure RegionPos where
  line : Nat
  column : Nat
  deriving DecidableEq, Repr

structure Region where
  from_ : RegionPos
  to_ : RegionPos
  deriving DecidableEq, Repr

structure NoteRec where
  message : PyStr
  suggestions : Option PyStr
  deriving DecidableEq, Repr

structure SourceRec where
  file : PyStr
  project : Option PyStr
  deriving DecidableEq, Repr

structure Diag where
  level : PyStr
  note : NoteRec
  region : Region
  source : SourceRec
  deriving DecidableEq, Repr

/- GHCModBackend.translate_check.  The level expression in the source is
     'error' if flag is None or not flag.lower().startswith('warning')
             else 'warning'
   written here as the equivalent match on the optional flag group. -/
def translate_check (project_dir : PyStr) (errmsg : CheckGroups) : Diag :=
  let line := pyInt errmsg.line
  let column := pyInt errmsg.col
  let filename :=
    if pyIsAbs errmsg.file then errmsg.file
    else pyNormpath (pyJoin project_dir errmsg.file)
  let level_type :=
    match errmsg.flag with
    | none => ("error".toList)
    | some flag =>
      if pyStartswith ("warning".toList) (pyLower flag) then ("warning".toList)
      else ("error".toList)
  { level := level_type,
    note := { message := errmsg.details, suggestions := none },
    region := { from_ := { line := line, column := 1 },
                to_ := { line := line, column := column } },
    source := { file := filename, project := none } }

/- GHCModBackend.translate_lint.  The message is
   '{0}{1}'.format(errmsg.group('msg'), errmsg.group('details')). -/
def translate_lint (project_dir : PyStr) (errmsg : LintGroups) : Diag :=
  let line := pyInt errmsg.line
  let column := pyInt errmsg.col
  let filename :=
    if pyIsAbs errmsg.file then errmsg.file
    else pyNormpath (pyJoin project_dir errmsg.file)
  { level := ("hint".toList),
    note := { message := errmsg.msg ++ errmsg.details, suggestions := none },
    region := { from_ := { line := line, column := 1 },
                to_ := { line := line, column := column } },
    source := { file := filename, project := none } }

/- The check-path of translate_regex_output applied to the raw reply text:
   [self.translate_check(project_dir, m) for m in GHC_CHECK_REGEX.finditer(text)]. -/
def checkDiags (project_dir : PyStr) (text : PyStr) : List Diag :=
  (finditerCheck text).map (translate_check project_dir)

/- GHCModBackend.translate_regex_output — modelled as a trace of the
   session operations it performs per file.  `getDir` is
   self.get_project_dir, `contents` the contents dict (None = file not in
   contents, so no mapping happens), `cmdOut` the outcome of
   self.command_backend for the file (its reply channels, or an exception:
   e.g. the AttributeError a dead session raises), and `records` stands for
   [xlat_func(project_dir, m) for m in regex.finditer('\n'.join(resp))]
   (regex and xlat_func are parameters in the source as well).  On an
   exception from the command, the `finally` block still performs the
   unmap before the exception propagates and aborts the loop. -/

inductive FileEvent
  | mapFile (f : PyStr)
  | cmd (f : PyStr)
  | unmapFile (f : PyStr)
  deriving DecidableEq, Repr

inductive CmdOutcome
  | ok (resp : List PyStr)
  | raise (e : PyErr)
  deriving DecidableEq, Repr

/- The session operations performed for one file of the loop:
   an optional map-file, the command itself, and (in the finally block)
   the matching unmap-file whenever the map happened. -/
def fileBlock (mapped : Bool) (f : PyStr) : List FileEvent :=
  (if mapped then [FileEvent.mapFile f] else []) ++ [FileEvent.cmd f] ++
  (if mapped then [FileEvent.unmapFile f] else [])

def translate_regex_output (getDir : PyStr → Option PyStr)
    (contents : PyStr → Option PyStr) (cmdOut : PyStr → CmdOutcome)
    (records : Option PyStr → List PyStr → List Diag) :
    List PyStr → List FileEvent × Except PyErr (List Diag)
  | [] => ([], Except.ok [])
  | f :: fs =>
    let mapped := (contents f).isSome
    match cmdOut f with
    | CmdOutcome.raise e => (fileBlock mapped f, Except.error e)
    | CmdOutcome.ok resp =>
      let rest := translate_regex_output getDir contents cmdOut records fs
      (fileBlock mapped f ++ rest.1,
       rest.2.map (fun rs => records (getDir f) resp ++ rs))

/- ProcHelper.__init__ (src/internals/proc_helper.py): executable not
   found leaves self.process = None with process_err set (no exception);
   a non-EPIPE OSError from Popen is re-raised; in the EPIPE branch the
   handler dereferences self.process (still None), raising AttributeError. -/
inductive SpawnOutcome
  | ok
  | notFound
  | osErrorPipe
  | osErrorOther
  deriving DecidableEq, Repr

def ProcHelper.init : SpawnOutcome → Except PyErr ProcHelperSt
  | SpawnOutcome.ok => Except.ok { process := true }
  | SpawnOutcome.notFound => Except.ok { process := false }
  | SpawnOutcome.osErrorPipe => Except.error PyErr.attributeError
  | SpawnOutcome.osErrorOther => Except.error PyErr.osError

/- GHCModClient.__init__: starts the ProcHelper; only when its process is
   live does it wrap the streams and set the action lock and stderr drain,
   otherwise those two fields stay None while self.ghcmod still holds the
   (process-less) ProcHelper. -/
def GHCModClient.init (sp : SpawnOutcome) : Except PyErr GHCModClientSt :=
  (ProcHelper.init sp).map (fun p =>
    if p.process then { ghcmod := some p, action_lock := true, stderr_drain := true }
    else { ghcmod := some p, action_lock := false, stderr_drain := false })

/- The project registry self.project_backends, as an association list. -/
abbrev Registry := List (PyStr × GHCModClientSt)

/- GHCModBackend.add_project_file: creates and stores a GHCModClient for
   the project if none is registered (the opt_args computation does not
   affect registry membership and is omitted). -/
def add_project_file (registry : Registry) (project : PyStr) (sp : SpawnOutcome) :
    Except PyErr Registry :=
  if (registry.lookup project).isSome then Except.ok registry
  else (GHCModClient.init sp).map (fun c => (project, c) :: registry)

/- The value assigned by the facade's session-dispatch expression
     xs, _ = backend.command_backend(cmd) if backend is not None else []
   either a two-tuple (the reply channels) or the empty list. -/
inductive UnpackVal
  | tuple2 (a b : List PyStr)
  | emptyList
  deriving DecidableEq, Repr

/- Python tuple unpacking `xs, ys = v`: unpacking the empty list raises
   ValueError (not enough values to unpack). -/
def pyUnpack2 : UnpackVal → Except PyErr (List PyStr × List PyStr)
  | UnpackVal.tuple2 a b => Except.ok (a, b)
  | UnpackVal.emptyList => Except.error PyErr.valueError

/- The shared shape of GHCModBackend.scope_modules / langs / flags up to
   the dispatch callback: resolve the project's session, run the command
   (or produce [] when there is none) and unpack the result.  The later
   construction of symbols.Module values and the dispatch callback itself
   live outside src/ and are not modelled; the returned list is the
   unpacked first channel that would feed them. -/
def sessionCommandLines (registry : Registry) (project_name : PyStr)
    (w : WriteEvent) (evs : List ReadEvent) : Except PyErr (List PyStr) := do
  let v ← match registry.lookup project_name with
    | some b =>
      (GHCModClient.command_backend b w evs).map
        (fun res => UnpackVal.tuple2 res.1.1 res.1.2)
    | none => Except.ok UnpackVal.emptyList
  let xs ← pyUnpack2 v
  Except.ok xs.1

/- GHCModBackend.scope_modules (lines 194-202): `modules, _ = ... else []`. -/
def scope_modules (registry : Registry) (project_name : PyStr)
    (w : WriteEvent) (evs : List ReadEvent) : Except PyErr (List PyStr) :=
  sessionCommandLines registry project_name w evs

/- GHCModBackend.langs (lines 239-244): `langs, _ = ... else []`. -/
def langs (registry : Registry) (project_name : PyStr)
    (w : WriteEvent) (evs : List ReadEvent) : Except PyErr (List PyStr) :=
  sessionCommandLines registry project_name w evs

/- GHCModBackend.flags (lines 246-251): `flags, _ = ... else []`. -/
def flags (registry : Registry) (project_name : PyStr)
    (w : WriteEvent) (evs : List ReadEvent) : Except PyErr (List PyStr) :=
  sessionCommandLines registry project_name w evs

/- re.match('\w+(\.\w+)+', lookup) as a Boolean: the string must begin
   with one or more word characters, a dot and a further word character
   (a match of the remaining `(\.\w+)+` iterations then always exists). -/
def isDottedName (s : PyStr) : Bool :=
  (s.takeWhile isWordChar ≠ []) &&
  (match s.dropWhile isWordChar with
   | '.' :: c :: _ => isWordChar c
   | _ => false)

/- GHCModBackend.module (lines 141-177) up to the reply unpacking: the
   guarded branch runs only for an exact search on a dotted module name;
   its `modinfo, err = ... else []` has the same unpack-the-fallback shape.
   The declaration parsing into symbols.Class/Data/Newtype/Function values
   (module symbols, outside src/) is not modelled; the unpacked channels
   feed it. -/
def module_op (registry : Registry) (project_name lookup search_type : PyStr)
    (w : WriteEvent) (evs : List ReadEvent) :
    Except PyErr (List PyStr × List PyStr) :=
  if search_type = ("exact".toList) ∧ isDottedName lookup then do
    let v ← match registry.lookup project_name with
      | some b =>
        (GHCModClient.command_backend b w evs).map
          (fun res => UnpackVal.tuple2 res.1.1 res.1.2)
      | none => Except.ok UnpackVal.emptyList
    pyUnpack2 v
  else Except.ok ([], [])

/- Helper lemmas about the Python string primitives. -/

theorem dropWhile_eq_self_of_append {p : Char → Bool} {ys zs : List Char}
    (h : (ys ++ zs).dropWhile p = ys ++ zs) : ys.dropWhile p = ys := by
  cases ys with
  | nil => simp
  | cons y ys' =>
    by_cases hy : p y = true
    · exfalso
      rw [List.cons_append, List.dropWhile_cons, if_pos hy] at h
      have hlen := congrArg List.length h
      have hle := (List.dropWhile_sublist (l := ys' ++ zs) (p := p)).length_le
      rw [List.length_cons] at hlen
      omega
    · rw [List.dropWhile_cons, if_neg hy]

theorem pyRstrip_eq_self_dropWhile {l : PyStr} (h : pyRstrip l = l) :
    l.reverse.dropWhile isPySpace = l.reverse := by
  unfold pyRstrip at h
  have := congrArg List.reverse h
  simpa using this

theorem pyRstrip_drop {l : PyStr} (h : pyRstrip l = l) (n : Nat) :
    pyRstrip (l.drop n) = l.drop n := by
  have hd := pyRstrip_eq_self_dropWhile h
  have hsplit : l.reverse = (l.drop n).reverse ++ (l.take n).reverse := by
    rw [← List.reverse_append, List.take_append_drop]
  rw [hsplit] at hd
  have := dropWhile_eq_self_of_append hd
  unfold pyRstrip
  rw [this, List.reverse_reverse]

theorem pyRstrip_append_ws {l : PyStr} {ch : Char} (h : isPySpace ch = true) :
    pyRstrip (l ++ [ch]) = pyRstrip l := by
  unfold pyRstrip
  rw [List.reverse_append]
  simp [List.dropWhile_cons, h]

theorem length_ge_of_take3 {l m : PyStr} (h : l.take 3 = m) (hm : m.length = 3) :
    3 ≤ l.length := by
  have := congrArg List.length h
  simp [List.length_take] at this
  omega

/- One O-channel step of the read-reply loop. -/
theorem readLoop_cons_o (c : GHCModClientSt) (a1 a2 : List PyStr) (l : PyStr)
    (rest : List ReadEvent) (hstrip : pyRstrip l = l) (hm : l.take 3 = oMark)
    (hok : l.drop 3 ≠ okText) :
    readLoop c a1 a2 (mkLine l :: rest) = readLoop c (a1 ++ [l.drop 3]) a2 rest := by
  have hlen3 : 3 ≤ l.length := length_ge_of_take3 hm (by decide)
  have hnonnil : ¬ (l ++ ['\n'] = []) := by simp
  have hpfx : (l ++ ['\n']).take 3 = l.take 3 := List.take_append_of_le_length hlen3
  have hstrip2 : pyRstrip (l ++ ['\n']) = l := by
    rw [pyRstrip_append_ws (by decide)]
    exact hstrip
  have hrs : pyRstrip (l.drop 3) = l.drop 3 := pyRstrip_drop hstrip 3
  simp only [mkLine, readLoop]
  rw [if_neg hnonnil, hpfx, hstrip2, if_pos hm, if_neg hok, hrs]

/- One X-channel step of the read-reply loop. -/
theorem readLoop_cons_x (c : GHCModClientSt) (a1 a2 : List PyStr) (l : PyStr)
    (rest : List ReadEvent) (hstrip : pyRstrip l = l) (hm : l.take 3 = xMark) :
    readLoop c a1 a2 (mkLine l :: rest) = readLoop c a1 (a2 ++ [l.drop 3]) rest := by
  have hlen3 : 3 ≤ l.length := length_ge_of_take3 hm (by decide)
  have hnonnil : ¬ (l ++ ['\n'] = []) := by simp
  have hpfx : (l ++ ['\n']).take 3 = l.take 3 := List.take_append_of_le_length hlen3
  have hstrip2 : pyRstrip (l ++ ['\n']) = l := by
    rw [pyRstrip_append_ws (by decide)]
    exact hstrip
  have hrs : pyRstrip (l.drop 3) = l.drop 3 := pyRstrip_drop hstrip 3
  have hnoto : ¬ (l.take 3 = oMark) := by
    rw [hm]; decide
  simp only [mkLine, readLoop]
  rw [if_neg hnonnil, hpfx, hstrip2, if_neg hnoto, if_pos hm, hrs]

/- The read-reply loop consumes a well-formed prefix of the stream by
   appending its stripped O-channel and X-channel lines to the
   accumulators, leaving the rest of the stream to be processed. -/
theorem readLoop_append (c : GHCModClientSt) (ls : List PyStr)
    (h : ∀ l ∈ ls, wellFormedLine l = true) (a1 a2 : List PyStr)
    (tail : List ReadEvent) :
    readLoop c a1 a2 (ls.map mkLine ++ tail)
      = readLoop c (a1 ++ oLinesOf ls) (a2 ++ xLinesOf ls) tail := by
  induction ls generalizing a1 a2 with
  | nil => simp [oLinesOf, xLinesOf]
  | cons l ls ih =>
    have hwf : wellFormedLine l = true := h l (List.mem_cons_self l ls)
    have hrest : ∀ x ∈ ls, wellFormedLine x = true :=
      fun x hx => h x (List.mem_cons_of_mem l hx)
    unfold wellFormedLine at hwf
    simp only [Bool.and_eq_true, Bool.or_eq_true, beq_iff_eq, Bool.not_eq_true',
      Bool.and_eq_false_iff, beq_eq_false_iff_ne] at hwf
    obtain ⟨⟨hstrip, hmark⟩, hok⟩ := hwf
    rcases hmark with hm | hm
    · have hnotok : l.drop 3 ≠ okText := by
        rcases hok with hok1 | hok2
        · exact absurd hm hok1
        · exact hok2
      have hnotx : ¬ (l.take 3 = xMark) := by
        rw [hm]; decide
      rw [List.map_cons, List.cons_append, readLoop_cons_o c a1 a2 l _ hstrip hm hnotok,
        ih hrest (a1 ++ [l.drop 3]) a2]
      have ho : oLinesOf (l :: ls) = l.drop 3 :: oLinesOf ls := by
        simp [oLinesOf, List.filter_cons, hm]
      have hx : xLinesOf (l :: ls) = xLinesOf ls := by
        simp only [xLinesOf, List.filter_cons]
        rw [if_neg]
        simp [hnotx]
      rw [ho, hx, List.append_assoc]
      simp
    · have hnoto : ¬ (l.take 3 = oMark) := by
        rw [hm]; decide
      rw [List.map_cons, List.cons_append, readLoop_cons_x c a1 a2 l _ hstrip hm,
        ih hrest a1 (a2 ++ [l.drop 3])]
      have ho : oLinesOf (l :: ls) = oLinesOf ls := by
        simp only [oLinesOf, List.filter_cons]
        rw [if_neg]
        simp [hnoto]
      have hx : xLinesOf (l :: ls) = l.drop 3 :: xLinesOf ls := by
        simp [xLinesOf, List.filter_cons, hm]
      rw [ho, hx, List.append_assoc]
      simp

deriving instance DecidableEq for Except

/- Claim theorems. -/

/-- C1: for every well-formed reply stream ending in a line `O: OK`,
GHCModClient.read_response returns exactly the pair of O-channel and
X-channel lines read before the terminator, each with its 3-character
marker stripped, in order, excluding the terminator itself. -/
theorem C1_read_response_channels (ls : List PyStr)
    (h : ∀ l ∈ ls, wellFormedLine l = true) (rest : List ReadEvent) :
    GHCModClient.read_response initClient
        (ls.map mkLine ++ mkLine ("O: OK".toList) :: rest)
      = Except.ok ((oLinesOf ls, xLinesOf ls), initClient) := by
  have hrr : GHCModClient.read_response initClient
      (ls.map mkLine ++ mkLine ("O: OK".toList) :: rest)
      = Except.ok (readLoop initClient [] []
          (ls.map mkLine ++ mkLine ("O: OK".toList) :: rest)) := rfl
  rw [hrr, readLoop_append initClient ls h [] [] (mkLine ("O: OK".toList) :: rest)]
  have hterm : readLoop initClient ([] ++ oLinesOf ls) ([] ++ xLinesOf ls)
      (mkLine ("O: OK".toList) :: rest)
      = ((([] ++ oLinesOf ls), ([] ++ xLinesOf ls)), initClient) := by
    simp only [mkLine, readLoop]
    rw [if_neg (by decide : ¬("O: OK".toList ++ ['\n'] = [])),
      if_pos (by decide : ("O: OK".toList ++ ['\n']).take 3 = oMark),
      if_pos (by decide : (pyRstrip ("O: OK".toList ++ ['\n'])).drop 3 = okText)]
  rw [hterm]
  simp

/-- C1 witness: a concrete three-line reply stream. -/
theorem C1_witness :
    GHCModClient.read_response initClient
        ([("O: a".toList), ("X: b".toList), ("O: c".toList)].map mkLine
          ++ mkLine ("O: OK".toList) :: [])
      = Except.ok (([("a".toList), ("c".toList)], [("b".toList)]), initClient) :=
  (C1_read_response_channels
    [("O: a".toList), ("X: b".toList), ("O: c".toList)] (by decide) []).trans
    (by decide)

/-- C2 counterexample: on an empty read (end of stream) read_response
terminates and returns the accumulated channels, but the session state is
unchanged — it is not the dead (shut-down) state the claim requires. -/
theorem C2_counterexample :
    GHCModClient.read_response initClient [ReadEvent.line []]
        = Except.ok (([], []), initClient) ∧ initClient ≠ deadClient := by
  constructor
  · decide
  · decide

/-- C2 amended: when read_response reads an empty line (end of stream),
the read-reply loop terminates and returns the channels accumulated so
far, and the session is left unchanged — it is not shut down and not
marked dead. -/
theorem C2_eof_terminates_loop (ls : List PyStr)
    (h : ∀ l ∈ ls, wellFormedLine l = true) (rest : List ReadEvent) :
    GHCModClient.read_response initClient
        (ls.map mkLine ++ ReadEvent.line [] :: rest)
      = Except.ok ((oLinesOf ls, xLinesOf ls), initClient) := by
  have hrr : GHCModClient.read_response initClient
      (ls.map mkLine ++ ReadEvent.line [] :: rest)
      = Except.ok (readLoop initClient [] []
          (ls.map mkLine ++ ReadEvent.line [] :: rest)) := rfl
  rw [hrr, readLoop_append initClient ls h [] [] (ReadEvent.line [] :: rest)]
  have hterm : readLoop initClient ([] ++ oLinesOf ls) ([] ++ xLinesOf ls)
      (ReadEvent.line [] :: rest)
      = ((([] ++ oLinesOf ls), ([] ++ xLinesOf ls)), initClient) := by
    simp [readLoop]
  rw [hterm]
  simp

/-- C2 witness: a concrete stream hitting end of stream after two lines. -/
theorem C2_witness :
    GHCModClient.read_response initClient
        ([("O: a".toList), ("X: b".toList)].map mkLine ++ ReadEvent.line [] :: [])
      = Except.ok (([("a".toList)], [("b".toList)]), initClient) :=
  (C2_eof_terminates_loop [("O: a".toList), ("X: b".toList)] (by decide) []).trans
    (by decide)

/-- C3 counterexample: an I/O error while reading the reply (after one
O-channel line was accumulated) shuts the session down but returns the
partially accumulated channels, not the empty channels the claim
requires. -/
theorem C3_counterexample :
    GHCModClient.command_backend initClient WriteEvent.ok
        [mkLine ("O: foo".toList), ReadEvent.ioError]
      = Except.ok (([("foo".toList)], []), deadClient) ∧
    (([("foo".toList)], ([] : List PyStr)) ≠ (([], []) : List PyStr × List PyStr)) := by
  constructor
  · decide
  · decide

/-- C3 amended: an I/O error while writing a command (through
command_backend, map_file or unmap_file) shuts the session down and the
call returns empty channels; an I/O error while reading the reply also
shuts the session down, but the call returns the channels accumulated up
to the error rather than empty ones. -/
theorem C3_io_error_shutdown :
    (∀ evs, GHCModClient.command_backend initClient WriteEvent.ioError evs
        = Except.ok (([], []), deadClient)) ∧
    (∀ f ct evs, GHCModClient.map_file initClient f ct WriteEvent.ioError evs
        = Except.ok (([], []), deadClient)) ∧
    (∀ f evs, GHCModClient.unmap_file initClient f WriteEvent.ioError evs
        = Except.ok (([], []), deadClient)) ∧
    (∀ ls, (∀ l ∈ ls, wellFormedLine l = true) → ∀ rest,
      GHCModClient.command_backend initClient WriteEvent.ok
          (ls.map mkLine ++ ReadEvent.ioError :: rest)
        = Except.ok ((oLinesOf ls, xLinesOf ls), deadClient)) := by
  refine ⟨fun evs => rfl, fun f ct evs => rfl, fun f evs => rfl, fun ls h rest => ?_⟩
  have hcb : GHCModClient.command_backend initClient WriteEvent.ok
      (ls.map mkLine ++ ReadEvent.ioError :: rest)
      = Except.ok (readLoop initClient [] []
          (ls.map mkLine ++ ReadEvent.ioError :: rest)) := rfl
  rw [hcb, readLoop_append initClient ls h [] [] (ReadEvent.ioError :: rest)]
  have hterm : readLoop initClient ([] ++ oLinesOf ls) ([] ++ xLinesOf ls)
      (ReadEvent.ioError :: rest)
      = ((([] ++ oLinesOf ls), ([] ++ xLinesOf ls)), deadClient) := by
    simp [readLoop]
  rw [hterm]
  simp

/-- C3 witness: a write error on an empty stream, and a read error after
one error-channel line. -/
theorem C3_witness :
    GHCModClient.command_backend initClient WriteEvent.ioError []
        = Except.ok (([], []), deadClient) ∧
    GHCModClient.command_backend initClient WriteEvent.ok
        ([("X: err".toList)].map mkLine ++ ReadEvent.ioError :: [])
      = Except.ok (([], [("err".toList)]), deadClient) :=
  ⟨C3_io_error_shutdown.1 [],
   (C3_io_error_shutdown.2.2.2 [("X: err".toList)] (by decide) []).trans (by decide)⟩

/-- C4 counterexample: shutting down an already-dead session is a no-op,
but a command on the dead session raises (the None action lock cannot be
entered) instead of returning empty results as the claim requires. -/
theorem C4_counterexample :
    GHCModClient.shutdown deadClient = Except.ok deadClient ∧
    GHCModClient.command_backend deadClient WriteEvent.ok []
      = Except.error PyErr.attributeError := by
  constructor
  · decide
  · decide

/-- C4 amended: a session transitions to dead exactly once — shutdown of a
live session yields the dead state and shutdown of an already-dead session
is a no-op producing no error — but once the session is dead, every
subsequent operation on it (command_backend, map_file, unmap_file) raises
an error (entering the None action lock fails) rather than returning empty
results. -/
theorem C4_dead_session_ops_raise :
    GHCModClient.shutdown initClient = Except.ok deadClient ∧
    GHCModClient.shutdown deadClient = Except.ok deadClient ∧
    (∀ w evs, GHCModClient.command_backend deadClient w evs
        = Except.error PyErr.attributeError) ∧
    (∀ f ct w evs, GHCModClient.map_file deadClient f ct w evs
        = Except.error PyErr.attributeError) ∧
    (∀ f w evs, GHCModClient.unmap_file deadClient f w evs
        = Except.error PyErr.attributeError) :=
  ⟨rfl, rfl, fun w evs => rfl, fun f ct w evs => rfl, fun f w evs => rfl⟩

/-- C4 witness: concrete operations on the dead session. -/
theorem C4_witness :
    GHCModClient.command_backend deadClient WriteEvent.ioError [ReadEvent.ioError]
        = Except.error PyErr.attributeError ∧
    GHCModClient.map_file deadClient ("Foo.hs".toList) ("body".toList)
        WriteEvent.ok [] = Except.error PyErr.attributeError ∧
    GHCModClient.unmap_file deadClient ("Foo.hs".toList) WriteEvent.ok []
        = Except.error PyErr.attributeError :=
  ⟨C4_dead_session_ops_raise.2.2.1 WriteEvent.ioError [ReadEvent.ioError],
   C4_dead_session_ops_raise.2.2.2.1 ("Foo.hs".toList) ("body".toList) WriteEvent.ok [],
   C4_dead_session_ops_raise.2.2.2.2 ("Foo.hs".toList) WriteEvent.ok []⟩

/-- C5 counterexample: the line `Foo.hs:3:7: WARNING: x shadows y` is
matched by the check grammar, but since the flag group only admits `*`,
`Warning:` or `warning:`, the all-caps token is not captured and the
record's level is `error`, not the `warning` the claim's example requires. -/
theorem C5_counterexample :
    (checkDiags ("/proj".toList) ("Foo.hs:3:7: WARNING: x shadows y".toList)).map
        (fun d => d.level) = [("error".toList)] ∧
    ("error".toList ≠ "warning".toList) := by
  constructor
  · decide
  · decide

/-- C5 amended: for every line matched by the check grammar,
translate_check classifies the record's level as `warning` if and only if
the flag token was captured and case-insensitively starts with `warning`;
since the grammar's flag alternatives are only `*`, `Warning:` and
`warning:`, an all-caps `WARNING:` is never captured and such lines are
classified `error`. -/
theorem C5_warning_iff (d : PyStr) (l : PyStr) (g : CheckGroups)
    (b r : List Char) (h : matchCheck [] l = some (g, b, r)) :
    (translate_check d g).level = ("warning".toList) ↔
      ∃ f, g.flag = some f ∧ pyStartswith ("warning".toList) (pyLower f) = true := by
  cases hf : g.flag with
  | none => simp [translate_check, hf]
  | some f =>
    by_cases hw : pyStartswith ("warning".toList) (pyLower f) = true
    · simp [translate_check, hf, hw]
    · simp [translate_check, hf, hw]

/-- C5 witness: the concrete warning line, with its concrete match. -/
theorem C5_witness :
    (translate_check ("/proj".toList)
        { file := ("Foo.hs".toList), line := ("3".toList), col := ("7".toList),
          flag := some ("Warning:".toList), details := ("x shadows y".toList) }).level
      = ("warning".toList) :=
  (C5_warning_iff ("/proj".toList) ("Foo.hs:3:7: Warning: x shadows y".toList)
      { file := ("Foo.hs".toList), line := ("3".toList), col := ("7".toList),
        flag := some ("Warning:".toList), details := ("x shadows y".toList) }
      (("Foo.hs:3:7: Warning: x shadows y".toList).reverse) []
      (by decide)).mpr ⟨("Warning:".toList), rfl, by decide⟩

/-- C6: in both translators a relative reported path is resolved against
the caller-supplied project directory (joined and normalised), an
absolute reported path is passed through unchanged, and resolving the
relative path `Foo.hs` against project directory `/proj` yields
`/proj/Foo.hs`. -/
theorem C6_path_reconciliation (d : PyStr) (g : CheckGroups) (gl : LintGroups) :
    (pyIsAbs g.file = false →
      (translate_check d g).source.file = pyNormpath (pyJoin d g.file)) ∧
    (pyIsAbs g.file = true → (translate_check d g).source.file = g.file) ∧
    (pyIsAbs gl.file = false →
      (translate_lint d gl).source.file = pyNormpath (pyJoin d gl.file)) ∧
    (pyIsAbs gl.file = true → (translate_lint d gl).source.file = gl.file) ∧
    pyNormpath (pyJoin ("/proj".toList) ("Foo.hs".toList)) = ("/proj/Foo.hs".toList) := by
  refine ⟨?_, ?_, ?_, ?_, by decide⟩ <;>
    intro h <;> simp [translate_check, translate_lint, h]

/-- C6 witness: a relative and an absolute reported path through
translate_check, and a relative path through translate_lint. -/
theorem C6_witness :
    (translate_check ("/proj".toList)
        { file := ("Foo.hs".toList), line := ("3".toList), col := ("7".toList),
          flag := none, details := [] }).source.file = ("/proj/Foo.hs".toList) ∧
    (translate_check ("/proj".toList)
        { file := ("/abs/Foo.hs".toList), line := ("3".toList), col := ("7".toList),
          flag := none, details := [] }).source.file = ("/abs/Foo.hs".toList) ∧
    (translate_lint ("/proj".toList)
        { file := ("Foo.hs".toList), line := ("10".toList), col := ("1".toList),
          flag := none, msg := [], details := [] }).source.file
      = ("/proj/Foo.hs".toList) := by
  refine ⟨?_, ?_, ?_⟩
  · exact ((C6_path_reconciliation ("/proj".toList)
      { file := ("Foo.hs".toList), line := ("3".toList), col := ("7".toList),
        flag := none, details := [] }
      { file := [], line := [], col := [], flag := none, msg := [], details := [] }).1
      (by decide)).trans (by decide)
  · exact (C6_path_reconciliation ("/proj".toList)
      { file := ("/abs/Foo.hs".toList), line := ("3".toList), col := ("7".toList),
        flag := none, details := [] }
      { file := [], line := [], col := [], flag := none, msg := [], details := [] }).2.1
      (by decide)
  · exact ((C6_path_reconciliation ("/proj".toList)
      { file := [], line := [], col := [], flag := none, details := [] }
      { file := ("Foo.hs".toList), line := ("10".toList), col := ("1".toList),
        flag := none, msg := [], details := [] }).2.2.1
      (by decide)).trans (by decide)

/-- C7: applying the check grammar and translate_check with project
directory `/proj` to the line `Foo.hs:3:7: Warning: x shadows y` yields
exactly one record: level `warning`, message `x shadows y`, region from
line 3 column 1 to line 3 column 7, and source file `/proj/Foo.hs`. -/
theorem C7_check_scenario :
    checkDiags ("/proj".toList) ("Foo.hs:3:7: Warning: x shadows y".toList)
      = [{ level := ("warning".toList),
           note := { message := ("x shadows y".toList), suggestions := none },
           region := { from_ := { line := 3, column := 1 },
                       to_ := { line := 3, column := 7 } },
           source := { file := ("/proj/Foo.hs".toList), project := none } }] := by
  decide

/-- C8: whenever translate_regex_output mapped a file's contents into the
session before issuing the analysis command, the matching unmap-file
operation is attempted afterwards — the operation trace contains the map,
the command and the unmap for that file, in that order — including when
the command raises an exception or returns a failure or empty reply. -/
theorem C8_unmap_always_attempted (getDir : PyStr → Option PyStr)
    (contents : PyStr → Option PyStr) (cmdOut : PyStr → CmdOutcome)
    (records : Option PyStr → List PyStr → List Diag) (files : List PyStr)
    (f : PyStr)
    (h : FileEvent.mapFile f ∈
      (translate_regex_output getDir contents cmdOut records files).1) :
    List.Sublist [FileEvent.mapFile f, FileEvent.cmd f, FileEvent.unmapFile f]
      ((translate_regex_output getDir contents cmdOut records files).1) := by
  induction files with
  | nil => simp [translate_regex_output] at h
  | cons f' fs ih =>
    have hbeq : fileBlock true f'
        = [FileEvent.mapFile f', FileEvent.cmd f', FileEvent.unmapFile f'] := by
      simp [fileBlock]
    cases hc : cmdOut f' with
    | raise e =>
      simp only [translate_regex_output, hc] at h ⊢
      simp [fileBlock] at h
      obtain ⟨hm, hf⟩ := h
      subst hf
      rw [hm, hbeq]
    | ok resp =>
      simp only [translate_regex_output, hc] at h ⊢
      rw [List.mem_append] at h
      rcases h with h1 | h2
      · simp [fileBlock] at h1
        obtain ⟨hm, hf⟩ := h1
        subst hf
        rw [hm, hbeq]
        exact List.sublist_append_left _ _
      · exact (ih h2).trans (List.sublist_append_right _ _)

/-- C8 witness: one mapped file whose command raises; the trace still
contains map, command and unmap in order. -/
theorem C8_witness :
    FileEvent.mapFile ("Foo.hs".toList) ∈
      (translate_regex_output (fun _ => none)
        (fun f => if f = ("Foo.hs".toList) then some ("body".toList) else none)
        (fun _ => CmdOutcome.raise PyErr.osError) (fun _ _ => [])
        [("Foo.hs".toList)]).1 ∧
    List.Sublist [FileEvent.mapFile ("Foo.hs".toList), FileEvent.cmd ("Foo.hs".toList),
     FileEvent.unmapFile ("Foo.hs".toList)]
      ((translate_regex_output (fun _ => none)
        (fun f => if f = ("Foo.hs".toList) then some ("body".toList) else none)
        (fun _ => CmdOutcome.raise PyErr.osError) (fun _ _ => [])
        [("Foo.hs".toList)]).1) :=
  ⟨by decide,
   C8_unmap_always_attempted (fun _ => none)
     (fun f => if f = ("Foo.hs".toList) then some ("body".toList) else none)
     (fun _ => CmdOutcome.raise PyErr.osError) (fun _ _ => [])
     [("Foo.hs".toList)] ("Foo.hs".toList) (by decide)⟩

/-- C9 counterexample: when the executable is not found, GHCModClient's
constructor completes without raising (ProcHelper merely records the
failure), so add_project_file stores a client with no live process in the
registry — the registry does have an entry for the project, contrary to
the claim. -/
theorem C9_counterexample :
    add_project_file [] ("proj".toList) SpawnOutcome.notFound
      = Except.ok [(("proj".toList),
          { ghcmod := some { process := false }, action_lock := false,
            stderr_drain := false })] ∧
    (([(("proj".toList),
        ({ ghcmod := some { process := false }, action_lock := false,
           stderr_drain := false } : GHCModClientSt))] : Registry).lookup
        ("proj".toList)).isSome = true := by
  constructor
  · decide
  · decide

/-- C9 amended: when the spawn raises an OSError (other than the EPIPE
special case), the exception propagates out of add_project_file and no
entry is stored for the project; but when the executable is simply not
found, construction succeeds and a client whose ProcHelper has no process
is stored in the registry. -/
theorem C9_spawn_failure_registry (reg : Registry) (proj : PyStr)
    (h : (reg.lookup proj).isSome = false) :
    add_project_file reg proj SpawnOutcome.osErrorOther
        = Except.error PyErr.osError ∧
    add_project_file reg proj SpawnOutcome.notFound
        = Except.ok ((proj,
            ({ ghcmod := some { process := false }, action_lock := false,
               stderr_drain := false } : GHCModClientSt)) :: reg) := by
  constructor
  · unfold add_project_file
    rw [h]
    rfl
  · unfold add_project_file
    rw [h]
    rfl

/-- C9 witness: an empty registry. -/
theorem C9_witness :
    add_project_file [] ("proj".toList) SpawnOutcome.osErrorOther
        = Except.error PyErr.osError ∧
    add_project_file [] ("proj".toList) SpawnOutcome.notFound
        = Except.ok [(("proj".toList),
            ({ ghcmod := some { process := false }, action_lock := false,
               stderr_drain := false } : GHCModClientSt))] :=
  C9_spawn_failure_registry [] ("proj".toList) (by decide)

/-- C10: for a project with no registered session, scope_modules, langs,
flags and module (with an exact dotted-name lookup) raise — the fallback
unpacks the empty list into a two-element tuple, a ValueError — instead of
returning an empty result through the dispatch callback. -/
theorem C10_missing_session_raises (reg : Registry) (p : PyStr)
    (h : reg.lookup p = none) (w : WriteEvent) (evs : List ReadEvent)
    (lookup : PyStr) (hl : isDottedName lookup = true) :
    scope_modules reg p w evs = Except.error PyErr.valueError ∧
    langs reg p w evs = Except.error PyErr.valueError ∧
    flags reg p w evs = Except.error PyErr.valueError ∧
    module_op reg p lookup ("exact".toList) w evs
      = Except.error PyErr.valueError := by
  have hs : sessionCommandLines reg p w evs = Except.error PyErr.valueError := by
    unfold sessionCommandLines
    rw [h]
    rfl
  refine ⟨hs, hs, hs, ?_⟩
  unfold module_op
  rw [if_pos ⟨rfl, hl⟩, h]
  rfl

/-- C10 witness: the empty registry and the dotted name `Data.List`. -/
theorem C10_witness :
    scope_modules [] ("p".toList) WriteEvent.ok [] = Except.error PyErr.valueError ∧
    langs [] ("p".toList) WriteEvent.ok [] = Except.error PyErr.valueError ∧
    flags [] ("p".toList) WriteEvent.ok [] = Except.error PyErr.valueError ∧
    module_op [] ("p".toList) ("Data.List".toList) ("exact".toList)
        WriteEvent.ok [] = Except.error PyErr.valueError :=
  C10_missing_session_raises [] ("p".toList) rfl WriteEvent.ok []
    ("Data.List".toList) (by decide)
